import Mathlib

/-!
Verification of the resumable GitHub crawl engine (Abidstic/Github-Crawler).

Shallow embedding of the Python sources:
* `src/rate_limiter.py`   — quota gate (`RateLimiter`),
* `src/github_client.py`  — fetch/retry layer (`GitHubClient.make_request`),
* `src/checkpoint_manager.py` — durable checkpoint store,
* `src/unified_crawler.py` — orchestrator finalization,
* `src/crawlers/pr_dependencies.py`, `src/crawlers/single_commits.py`,
* `src/utils.py`          — commit-sha discovery and deduplication,
* `src/config.py`         — configuration constants.

Real time, the network and the filesystem are modelled explicitly: time is a
rational `now` threaded through the functions that call `time.time()`,
HTTP traffic is a scripted list of responses, and the filesystem is an
explicit association of paths to contents.
-/

namespace GithubCrawler

/-! ### Configuration (src/config.py, `CrawlerConfig`) -/

/-- Embeds the fields of `CrawlerConfig` used by the rate limiter and the
client (src/config.py lines 9-30), with the shipped default values. -/
structure CrawlerConfig where
  rate_limit_buffer : Int := 200
  max_concurrent_requests : Int := 10
  max_retries : Nat := 3
  base_backoff_delay : ℚ := 60
  max_backoff_delay : ℚ := 300
  checkpoint_interval : Nat := 50
deriving DecidableEq

/-- The global `config = CrawlerConfig()` instance of src/config.py. -/
def defaultConfig : CrawlerConfig := {}

/-! ### Rate limiter state (src/rate_limiter.py) -/

/-- `RateLimitStatus` dataclass (src/rate_limiter.py lines 8-26). -/
structure RateLimitStatus where
  limit : Int := 5000
  remaining : Int := 5000
  reset_time : ℚ := 0
  used : Int := 0
deriving DecidableEq

/-- `RateLimitStatus.seconds_until_reset`: `max(0, reset_time - time.time())`
(line 22), with the current time passed explicitly. -/
def seconds_until_reset (now : ℚ) (s : RateLimitStatus) : ℚ :=
  max 0 (s.reset_time - now)

/-- `RateLimitStatus.is_exhausted`: `remaining <= 0` (line 26). -/
def is_exhausted (s : RateLimitStatus) : Bool :=
  s.remaining ≤ 0

/-- Mutable state of a `RateLimiter` instance (lines 31-37): the status plus
the request-time window, the failure counter and the conservative flag. -/
structure RLState where
  status : RateLimitStatus := {}
  request_times : List ℚ := []
  consecutive_failures : Nat := 0
  conservative_mode : Bool := false
deriving DecidableEq

/-- Result of applying `int(...)` to the four rate-limit response headers
(with the `headers.get` defaults already folded in by the caller): `none`
for a field means the `int()` conversion raised `ValueError`/`TypeError`. -/
structure RawHeaders where
  limit : Option Int := some 5000
  remaining : Option Int := some 5000
  reset : Option ℚ := none
  used : Option Int := some 0
deriving DecidableEq

/-- All four header fields convert successfully. -/
def headers_parseable (h : RawHeaders) : Bool :=
  h.limit.isSome && h.remaining.isSome && h.reset.isSome && h.used.isSome

/-- `RateLimiter.update_from_headers` (lines 39-51).  The four assignments
run in order inside a `try`; the first failing conversion aborts the rest,
so fields assigned before the failure keep their new values and
`consecutive_failures` is reset to 0 only when all four succeed. -/
def update_from_headers (st : RLState) (h : RawHeaders) : RLState :=
  match h.limit with
  | none => st
  | some l =>
    let st := { st with status := { st.status with limit := l } }
    match h.remaining with
    | none => st
    | some r =>
      let st := { st with status := { st.status with remaining := r } }
      match h.reset with
      | none => st
      | some t =>
        let st := { st with status := { st.status with reset_time := t } }
        match h.used with
        | none => st
        | some u =>
          { st with status := { st.status with used := u }, consecutive_failures := 0 }

/-- `RateLimiter.is_safe_to_proceed` (lines 53-61):
`remaining > upcoming_requests + buffer`, with the buffer doubled in
conservative mode. -/
def is_safe_to_proceed (cfg : CrawlerConfig) (st : RLState) (upcoming : Int) : Bool :=
  let buffer := if st.conservative_mode then cfg.rate_limit_buffer * 2 else cfg.rate_limit_buffer
  upcoming + buffer < st.status.remaining

/-- `RateLimiter._calculate_minimal_delay` (lines 85-100): prunes the
request-time window to the last 60 seconds, then picks 1s / 0.5s / 0.1s by
the window size.  Returns the delay and the state with the pruned window. -/
def calculate_minimal_delay (now : ℚ) (st : RLState) : ℚ × RLState :=
  let times := st.request_times.filter (fun t => now - t < 60)
  let st := { st with request_times := times }
  if 60 < times.length then (1, st)
  else if 30 < times.length then (1/2, st)
  else (1/10, st)

/-- `RateLimiter.calculate_delay` (lines 63-83). -/
def calculate_delay (now : ℚ) (cfg : CrawlerConfig) (st : RLState) (upcoming : Int) :
    ℚ × RLState :=
  if is_safe_to_proceed cfg st upcoming then calculate_minimal_delay now st
  else if is_exhausted st.status then (seconds_until_reset now st.status + 60, st)
  else
    let remaining_time := seconds_until_reset now st.status
    let requests_needed := upcoming + cfg.rate_limit_buffer
    if st.status.remaining ≤ requests_needed then (remaining_time + 60, st)
    else (max (1/2) (remaining_time / (st.status.remaining : ℚ)), st)

/-- Outcome of one `wait_if_needed` call: the slept delay, whether control
returns to the caller so that the request is issued, and the limiter state
afterwards. -/
structure GateDecision where
  delay : ℚ
  proceed : Bool
  post : RLState
deriving DecidableEq

/-- `RateLimiter.wait_if_needed` (lines 102-114): computes the delay,
sleeps it, and returns.  The function has no refusing branch and performs
no re-check after the sleep, so `proceed` is unconditionally `true` and the
recorded quota is unchanged. -/
def wait_if_needed (now : ℚ) (cfg : CrawlerConfig) (st : RLState) (upcoming : Int) :
    GateDecision :=
  let p := calculate_delay now cfg st upcoming
  { delay := p.1, proceed := true, post := p.2 }

/-- `RateLimiter.record_request` (lines 116-118). -/
def record_request (now : ℚ) (st : RLState) : RLState :=
  { st with request_times := st.request_times ++ [now] }

/-- `RateLimiter.handle_rate_limit_error` (lines 120-134): increment the
failure counter, update status from the rejection's headers, enable
conservative mode at a count of 3 or more, and return the wait time
`seconds_until_reset + 120`. -/
def handle_rate_limit_error (now : ℚ) (st : RLState) (h : RawHeaders) : RLState × ℚ :=
  let st := { st with consecutive_failures := st.consecutive_failures + 1 }
  let st := update_from_headers st h
  let st := if 3 ≤ st.consecutive_failures then { st with conservative_mode := true } else st
  (st, seconds_until_reset now st.status + 120)

/-! ### Concrete limiter states used by the quota-gate claims -/

/-- A limiter state whose recorded remaining quota (100) is below the
configured buffer (200), with the reset 600 seconds away. -/
def rlLowQuota : RLState :=
  { status := { limit := 5000, remaining := 100, reset_time := 600, used := 4900 } }

/-- Like `rlLowQuota` but with conservative mode active and 300 remaining:
unsafe for the doubled buffer (300 ≤ 1 + 400) yet above the raw
`requests_needed` threshold (201 < 300). -/
def rlConservative : RLState :=
  { status := { limit := 5000, remaining := 300, reset_time := 600, used := 4700 }
    conservative_mode := true }

/-- Fully parseable rejection headers reporting zero remaining quota. -/
def rejectionHeaders : RawHeaders :=
  { limit := some 5000, remaining := some 0, reset := some 600, used := some 5000 }

/-- State after `n` consecutive `handle_rate_limit_error` calls (each with
the fully parseable `rejectionHeaders`) from a fresh limiter, with no
intervening successful request. -/
def afterNRejections : Nat → RLState
  | 0 => {}
  | n + 1 => (handle_rate_limit_error 0 (afterNRejections n) rejectionHeaders).1

/-- C1 counterexample: at `rlLowQuota` the recorded remaining (100) is at
or below the buffer (200), no authoritative update has replenished it, yet
`wait_if_needed` — the only gate in front of `make_request`
(src/github_client.py line 44) — still hands control back to the caller
after its single sleep, with the recorded remaining unchanged.  The claim
that the gate "does not proceed while the locally recorded remaining is
still <= buffer" is therefore false. -/
theorem quota_gate_authorizes_below_buffer :
    rlLowQuota.status.remaining ≤ defaultConfig.rate_limit_buffer ∧
    (wait_if_needed 0 defaultConfig rlLowQuota 1).proceed = true ∧
    (wait_if_needed 0 defaultConfig rlLowQuota 1).post.status.remaining =
      rlLowQuota.status.remaining := by
  decide

/-- C1 amended: when the gate is unsafe in non-conservative mode it
compensates only through the length of its one computed delay
(`seconds_until_reset + 60`); after sleeping it authorizes the request
unconditionally, with the locally recorded remaining unchanged (nothing
replenishes it during the wait). -/
theorem quota_gate_single_delay_then_proceed (now : ℚ) (cfg : CrawlerConfig) (st : RLState)
    (n : Int) (hcons : st.conservative_mode = false)
    (hnotsafe : is_safe_to_proceed cfg st n = false) :
    (wait_if_needed now cfg st n).proceed = true ∧
    (wait_if_needed now cfg st n).post.status.remaining = st.status.remaining ∧
    (wait_if_needed now cfg st n).delay = seconds_until_reset now st.status + 60 := by
  have hle : st.status.remaining ≤ n + cfg.rate_limit_buffer := by
    simp only [is_safe_to_proceed, hcons, if_false, decide_eq_false_iff_not, not_lt] at hnotsafe
    exact hnotsafe
  refine ⟨rfl, ?_, ?_⟩ <;>
    simp only [wait_if_needed, calculate_delay, hnotsafe, Bool.false_eq_true, if_false,
      is_exhausted] <;>
    (rcases le_or_lt st.status.remaining 0 with hz | hz
     · simp [hz]
     · simp [not_le.mpr hz, hle])

/-- C1 witness: the amended theorem applied at the concrete unsafe state
`rlLowQuota`. -/
theorem quota_gate_single_delay_then_proceed_witness :
    (wait_if_needed 0 defaultConfig rlLowQuota 1).proceed = true ∧
    (wait_if_needed 0 defaultConfig rlLowQuota 1).post.status.remaining =
      rlLowQuota.status.remaining ∧
    (wait_if_needed 0 defaultConfig rlLowQuota 1).delay =
      seconds_until_reset 0 rlLowQuota.status + 60 :=
  quota_gate_single_delay_then_proceed 0 defaultConfig rlLowQuota 1 (by decide) (by decide)

/-- C2: the quota-rejection handler increments `consecutive_failures` and
then calls `update_from_headers`, which resets the counter to 0 whenever
the headers parse (src/rate_limiter.py lines 47-48, 122-123).  The check
`consecutive_failures >= 3` on line 126 therefore always sees 0 on the
parseable-header path: after three (or five) consecutive rejections with
parseable headers, conservative mode is still off. -/
theorem conservative_mode_never_enabled_by_parseable_rejections :
    headers_parseable rejectionHeaders = true ∧
    (afterNRejections 3).conservative_mode = false ∧
    (afterNRejections 3).consecutive_failures = 0 ∧
    (afterNRejections 5).conservative_mode = false := by
  decide

/-- C3 counterexample: at `rlLowQuota` the gate is unsafe with positive
remaining quota (100), yet `calculate_delay` returns
`seconds_until_reset + 60 = 660`, not the proportional spread
`max(0.5, 600/100) = 6` the claim requires: the code's middle branch
(`requests_needed >= remaining`, src/rate_limiter.py line 78) intercepts
every non-conservative unsafe state. -/
theorem calculate_delay_not_proportional_when_unsafe :
    is_safe_to_proceed defaultConfig rlLowQuota 1 = false ∧
    (0 : Int) < rlLowQuota.status.remaining ∧
    (calculate_delay 0 defaultConfig rlLowQuota 1).1 = 660 ∧
    max (1/2 : ℚ) (seconds_until_reset 0 rlLowQuota.status /
      (rlLowQuota.status.remaining : ℚ)) = 6 ∧
    (660 : ℚ) ≠ 6 := by
  refine ⟨by decide, by decide, ?_, ?_, by norm_num⟩
  · simp only [calculate_delay, is_safe_to_proceed, is_exhausted, rlLowQuota, defaultConfig,
      seconds_until_reset]
    norm_num
  · simp only [rlLowQuota, seconds_until_reset]
    norm_num

/-- C3 amended: for an unsafe gate state, `calculate_delay` returns
`seconds_until_reset + 60` whenever `remaining <= 0` or
`remaining <= n + rate_limit_buffer` (the raw, undoubled buffer), and the
proportional spread `max(0.5, seconds_until_reset / remaining)` only
otherwise — a branch reachable only in conservative mode, since without
doubling, unsafe already implies `remaining <= n + rate_limit_buffer`. -/
theorem calculate_delay_unsafe_cases (now : ℚ) (cfg : CrawlerConfig) (st : RLState)
    (n : Int) (hnotsafe : is_safe_to_proceed cfg st n = false) :
    ((calculate_delay now cfg st n).1 =
      if st.status.remaining ≤ 0 ∨ st.status.remaining ≤ n + cfg.rate_limit_buffer
      then seconds_until_reset now st.status + 60
      else max (1/2) (seconds_until_reset now st.status / (st.status.remaining : ℚ))) ∧
    (st.conservative_mode = false →
      st.status.remaining ≤ 0 ∨ st.status.remaining ≤ n + cfg.rate_limit_buffer) := by
  constructor
  · simp only [calculate_delay, hnotsafe, Bool.false_eq_true, if_false, is_exhausted]
    rcases le_or_lt st.status.remaining 0 with hz | hz
    · simp [hz]
    · rcases le_or_lt st.status.remaining (n + cfg.rate_limit_buffer) with hb | hb
      · simp [hb, not_le.mpr hz]
      · simp [not_le.mpr hz, not_le.mpr hb]
  · intro hcons
    simp only [is_safe_to_proceed, hcons, if_false, decide_eq_false_iff_not, not_lt] at hnotsafe
    right
    exact hnotsafe

/-- C3 witness: the amended theorem applied at the conservative-mode state
`rlConservative`, where the proportional branch is actually taken. -/
theorem calculate_delay_unsafe_cases_witness :
    ((calculate_delay 0 defaultConfig rlConservative 1).1 =
      if rlConservative.status.remaining ≤ 0 ∨
          rlConservative.status.remaining ≤ 1 + defaultConfig.rate_limit_buffer
      then seconds_until_reset 0 rlConservative.status + 60
      else max (1/2) (seconds_until_reset 0 rlConservative.status /
        (rlConservative.status.remaining : ℚ))) ∧
    (rlConservative.conservative_mode = false →
      rlConservative.status.remaining ≤ 0 ∨
        rlConservative.status.remaining ≤ 1 + defaultConfig.rate_limit_buffer) :=
  calculate_delay_unsafe_cases 0 defaultConfig rlConservative 1 (by decide)

/-! ### Fetch/retry layer (src/github_client.py, `GitHubClient.make_request`) -/

/-- One scripted HTTP interaction, classified the way lines 67-107 of
src/github_client.py branch on it: 200, 403, 404, a 5xx code, any other
status, or an `aiohttp.ClientError` raised before a response arrives.
Responses carry their rate-limit headers (line 56 always feeds them to
`update_from_headers`); a network error has none. -/
inductive HttpResp where
  | httpOk (h : RawHeaders)
  | http403 (h : RawHeaders)
  | http404 (h : RawHeaders)
  | http5xx (code : Nat) (h : RawHeaders)
  | httpOther (code : Nat) (h : RawHeaders)
  | netErr
deriving DecidableEq

/-- How one `make_request` call ends: a 200 payload, a raised
`GitHubAPIError` for 404 / other client codes, the final "Failed after N
retries" error (line 122), or `pending` when the response script ran out
while the loop still wanted another response. -/
inductive Outcome where
  | success
  | notFound
  | clientError (code : Nat)
  | exhausted
  | pending
deriving DecidableEq

/-- Observable effects of the retry loop: issuing a request and sleeping. -/
inductive Event where
  | requestIssued
  | slept (d : ℚ)
deriving DecidableEq

/-- Limiter state and wait time after the 403 branch (lines 70-77): the
headers are first consumed by line 56's `update_from_headers`, then
`handle_rate_limit_error` re-reads them, and the returned wait is slept. -/
def after403 (now : ℚ) (st : RLState) (h : RawHeaders) : RLState × ℚ :=
  handle_rate_limit_error now (update_from_headers (record_request now st) h) h

/-- The backoff slept after the `retry_count`-th transient failure
(lines 88-97 and 109-119): `min(base_backoff_delay * 2 ** retry_count,
max_backoff_delay)` with `retry_count` already incremented. -/
def backoff_delay (cfg : CrawlerConfig) (attempt : Nat) : ℚ :=
  min (cfg.base_backoff_delay * 2 ^ attempt) cfg.max_backoff_delay

/-- The `while retry_count < config.max_retries` loop of
`GitHubClient.make_request` (lines 49-122), run against a scripted list of
responses.  Returns the outcome, the trace of requests and sleeps, and the
unconsumed rest of the script.  Per the code: a 200/404/other-status
response ends the call; a 403 sleeps the limiter's wait and loops without
touching `retry_count`; a 5xx or network error increments `retry_count`
and sleeps the capped exponential backoff; leaving the loop raises the
exhaustion error. -/
def make_request_loop (now : ℚ) (cfg : CrawlerConfig) :
    RLState → Nat → List HttpResp → Outcome × List Event × List HttpResp
  | st, retry, script =>
    if retry < cfg.max_retries then
      match script with
      | [] => (.pending, [], [])
      | .httpOk _ :: rest => (.success, [.requestIssued], rest)
      | .http403 h :: rest =>
        let p := after403 now st h
        let r := make_request_loop now cfg p.1 retry rest
        (r.1, .requestIssued :: .slept p.2 :: r.2.1, r.2.2)
      | .http404 _ :: rest => (.notFound, [.requestIssued], rest)
      | .http5xx _ h :: rest =>
        let st := update_from_headers (record_request now st) h
        let r := make_request_loop now cfg st (retry + 1) rest
        (r.1, .requestIssued :: .slept (backoff_delay cfg (retry + 1)) :: r.2.1, r.2.2)
      | .httpOther c _ :: rest => (.clientError c, [.requestIssued], rest)
      | .netErr :: rest =>
        let r := make_request_loop now cfg (record_request now st) (retry + 1) rest
        (r.1, .requestIssued :: .slept (backoff_delay cfg (retry + 1)) :: r.2.1, r.2.2)
    else (.exhausted, [], script)

/-- `GitHubClient.make_request` (lines 38-122): one gate wait
(`wait_if_needed`, line 44), then the retry loop from `retry_count = 0`. -/
def make_request (now : ℚ) (cfg : CrawlerConfig) (st : RLState) (script : List HttpResp) :
    Outcome × List Event × List HttpResp :=
  make_request_loop now cfg (wait_if_needed now cfg st 1).post 0 script

/-- `exhaustsFrom k script` holds when the script opens with `k` transient
failures (5xx or network errors) before any terminal response, with 403
quota rejections interleaved freely — exactly the condition under which a
retry budget of `k` is used up. -/
def exhaustsFrom : Nat → List HttpResp → Bool
  | 0, _ => true
  | _ + 1, [] => false
  | k + 1, .http403 _ :: rest => exhaustsFrom (k + 1) rest
  | k + 1, .http5xx _ _ :: rest => exhaustsFrom k rest
  | k + 1, .netErr :: rest => exhaustsFrom k rest
  | _ + 1, .httpOk _ :: _ => false
  | _ + 1, .http404 _ :: _ => false
  | _ + 1, .httpOther _ _ :: _ => false

/-- The retry loop raises the exhaustion error exactly when the remaining
retry budget `max_retries - retry` is consumed by transient failures
before any terminal response; 403 responses never consume it. -/
theorem make_request_loop_exhausted_iff (now : ℚ) (cfg : CrawlerConfig) :
    ∀ (script : List HttpResp) (st : RLState) (retry : Nat),
    ((make_request_loop now cfg st retry script).1 = .exhausted) ↔
      exhaustsFrom (cfg.max_retries - retry) script = true := by
  intro script
  induction script with
  | nil =>
    intro st retry
    by_cases h : retry < cfg.max_retries
    · obtain ⟨k, hk⟩ : ∃ k, cfg.max_retries - retry = k + 1 :=
        ⟨cfg.max_retries - retry - 1, by omega⟩
      simp [make_request_loop, h, hk, exhaustsFrom]
    · have hz : cfg.max_retries - retry = 0 := by omega
      simp [make_request_loop, h, hz, exhaustsFrom]
  | cons r rest ih =>
    intro st retry
    by_cases h : retry < cfg.max_retries
    · obtain ⟨k, hk⟩ : ∃ k, cfg.max_retries - retry = k + 1 :=
        ⟨cfg.max_retries - retry - 1, by omega⟩
      have hk' : cfg.max_retries - (retry + 1) = k := by omega
      cases r with
      | httpOk h' => simp [make_request_loop, h, hk, exhaustsFrom]
      | http403 h' => simpa [make_request_loop, h, hk, exhaustsFrom, hk] using ih _ retry
      | http404 h' => simp [make_request_loop, h, hk, exhaustsFrom]
      | http5xx c h' => simpa [make_request_loop, h, hk, hk', exhaustsFrom] using ih _ (retry + 1)
      | httpOther c h' => simp [make_request_loop, h, hk, exhaustsFrom]
      | netErr => simpa [make_request_loop, h, hk, hk', exhaustsFrom] using ih _ (retry + 1)
    · have hz : cfg.max_retries - retry = 0 := by omega
      rw [make_request_loop.eq_def]
      simp [h, hz, exhaustsFrom]

/-- C4: the single-request operation ends in the exhaustion error exactly
when `max_retries` transient failures (5xx or network errors) occur before
any terminal response; a 403 quota rejection is consumed without touching
the retry counter — the loop re-issues after sleeping the quota gate's
computed wait — and each transient failure sleeps the capped exponential
backoff `min(base * 2 ^ attempt, max_backoff)`, where `attempt` is the
1-based attempt count (the code's post-increment `retry_count`), for every
interleaving of quota rejections and transient failures. -/
theorem make_request_retry_discipline (now : ℚ) (cfg : CrawlerConfig) (st : RLState)
    (script rest : List HttpResp) (h : RawHeaders) (retry : Nat)
    (hret : retry < cfg.max_retries) :
    ((make_request now cfg st script).1 = .exhausted ↔
      exhaustsFrom cfg.max_retries script = true) ∧
    (make_request_loop now cfg st retry (.http403 h :: rest) =
      ((make_request_loop now cfg (after403 now st h).1 retry rest).1,
       .requestIssued :: .slept (after403 now st h).2 ::
         (make_request_loop now cfg (after403 now st h).1 retry rest).2.1,
       (make_request_loop now cfg (after403 now st h).1 retry rest).2.2)) ∧
    (make_request_loop now cfg st retry (.http5xx 502 h :: rest) =
      ((make_request_loop now cfg (update_from_headers (record_request now st) h)
          (retry + 1) rest).1,
       .requestIssued :: .slept (backoff_delay cfg (retry + 1)) ::
         (make_request_loop now cfg (update_from_headers (record_request now st) h)
          (retry + 1) rest).2.1,
       (make_request_loop now cfg (update_from_headers (record_request now st) h)
          (retry + 1) rest).2.2)) ∧
    (make_request_loop now cfg st retry (.netErr :: rest) =
      ((make_request_loop now cfg (record_request now st) (retry + 1) rest).1,
       .requestIssued :: .slept (backoff_delay cfg (retry + 1)) ::
         (make_request_loop now cfg (record_request now st) (retry + 1) rest).2.1,
       (make_request_loop now cfg (record_request now st) (retry + 1) rest).2.2)) := by
  refine ⟨?_, ?_, ?_, ?_⟩
  · simpa [make_request] using
      make_request_loop_exhausted_iff now cfg script (wait_if_needed now cfg st 1).post 0
  · simp [make_request_loop, hret]
  · simp [make_request_loop, hret]
  · simp [make_request_loop, hret]

/-- C4 witness: the discipline theorem at a concrete script of three
network errors (which exhausts the default budget of 3), with a 403 head
and `retry = 0`. -/
theorem make_request_retry_discipline_witness :
    ((make_request 0 defaultConfig {} [.netErr, .netErr, .netErr]).1 = .exhausted ↔
      exhaustsFrom defaultConfig.max_retries [.netErr, .netErr, .netErr] = true) ∧
    (make_request_loop 0 defaultConfig {} 0 [.http403 rejectionHeaders] =
      ((make_request_loop 0 defaultConfig (after403 0 {} rejectionHeaders).1 0 []).1,
       .requestIssued :: .slept (after403 0 {} rejectionHeaders).2 ::
         (make_request_loop 0 defaultConfig (after403 0 {} rejectionHeaders).1 0 []).2.1,
       (make_request_loop 0 defaultConfig (after403 0 {} rejectionHeaders).1 0 []).2.2)) ∧
    (make_request_loop 0 defaultConfig {} 0 [.http5xx 502 rejectionHeaders] =
      ((make_request_loop 0 defaultConfig
          (update_from_headers (record_request 0 {}) rejectionHeaders) 1 []).1,
       .requestIssued :: .slept (backoff_delay defaultConfig 1) ::
         (make_request_loop 0 defaultConfig
          (update_from_headers (record_request 0 {}) rejectionHeaders) 1 []).2.1,
       (make_request_loop 0 defaultConfig
          (update_from_headers (record_request 0 {}) rejectionHeaders) 1 []).2.2)) ∧
    (make_request_loop 0 defaultConfig {} 0 [.netErr] =
      ((make_request_loop 0 defaultConfig (record_request 0 {}) 1 []).1,
       .requestIssued :: .slept (backoff_delay defaultConfig 1) ::
         (make_request_loop 0 defaultConfig (record_request 0 {}) 1 []).2.1,
       (make_request_loop 0 defaultConfig (record_request 0 {}) 1 []).2.2)) :=
  make_request_retry_discipline 0 defaultConfig {} [.netErr, .netErr, .netErr] []
    rejectionHeaders 0 (by decide)

/-! ### Checkpoint store (src/checkpoint_manager.py) -/

/-- `CrawlerCheckpoint` dataclass (src/checkpoint_manager.py lines 8-25). -/
structure CrawlerCheckpoint where
  crawler_name : String
  completed : Bool := false
  total_items : Int := 0
  processed_items : Int := 0
  failed_items : List String := []
  skipped_items : List String := []
  last_update : ℚ := 0
deriving DecidableEq

/-- `MasterCheckpoint` dataclass (lines 27-44). -/
structure MasterCheckpoint where
  repo_owner : String
  repo_name : String
  start_time : ℚ
  last_update : ℚ
  crawlers : List (String × CrawlerCheckpoint) := []
  completed_pull_numbers : List Int := []
  completed_commit_shas : List String := []
deriving DecidableEq

/-- Contents found at a file path that is written by `save_checkpoint`: a
complete serialized snapshot, or the half-written junk an interrupted
`json.dump` leaves behind. -/
inductive SnapFile where
  | complete (snap : MasterCheckpoint)
  | halfWritten
deriving DecidableEq

/-- The two paths `save_checkpoint` touches: the checkpoint file itself and
its `.tmp` sibling (lines 111-115). -/
structure CheckpointFS where
  main : Option SnapFile
  temp : Option SnapFile
deriving DecidableEq

/-- The checkpoint path holds no half-written data (it is absent or a
complete snapshot). -/
def main_intact (fs : CheckpointFS) : Bool :=
  match fs.main with
  | none => true
  | some (.complete _) => true
  | some .halfWritten => false

/-- Every filesystem state reachable while `CheckpointManager.save_checkpoint`
(lines 92-118) runs, in order: before anything is written; crashed midway
through `json.dump` into the `.tmp` file; the `.tmp` file completely
written; and after the atomic `os.rename` of `.tmp` onto the checkpoint
path.  A crash can stop the save after any of these, and `os.rename` is a
single atomic step. -/
def save_checkpoint_states (fs : CheckpointFS) (snap : MasterCheckpoint) :
    List CheckpointFS :=
  [ fs,
    { fs with temp := some .halfWritten },
    { fs with temp := some (.complete snap) },
    { main := some (.complete snap), temp := none } ]

/-- C5: whatever the crash point during `save_checkpoint`, the checkpoint
path, if present, holds either the untouched previous contents or the new
complete snapshot — never a half-written one — because the snapshot is
fully written to the `.tmp` path first and only then renamed into place. -/
theorem save_checkpoint_crash_safe (fs : CheckpointFS) (snap : MasterCheckpoint)
    (hprev : main_intact fs = true) :
    ∀ g ∈ save_checkpoint_states fs snap,
      main_intact g = true ∧ (g.main = fs.main ∨ g.main = some (.complete snap)) := by
  intro g hg
  simp only [save_checkpoint_states, List.mem_cons, List.mem_singleton,
    List.not_mem_nil, or_false] at hg
  rcases hg with rfl | rfl | rfl | rfl
  · exact ⟨hprev, Or.inl rfl⟩
  · exact ⟨hprev, Or.inl rfl⟩
  · exact ⟨hprev, Or.inl rfl⟩
  · exact ⟨rfl, Or.inr rfl⟩

/-- A tiny concrete snapshot for the crash-safety witness. -/
def snapOld : MasterCheckpoint :=
  { repo_owner := "o", repo_name := "r", start_time := 0, last_update := 0 }

/-- The snapshot written by the witnessed save. -/
def snapNew : MasterCheckpoint :=
  { repo_owner := "o", repo_name := "r", start_time := 0, last_update := 1,
    completed_pull_numbers := [7] }

/-- C5 witness: crash-safety applied at a concrete filesystem (old snapshot
on disk) and the crash point in the middle of writing the `.tmp` file. -/
theorem save_checkpoint_crash_safe_witness :
    main_intact { main := some (.complete snapOld), temp := some .halfWritten } = true ∧
    (({ main := some (.complete snapOld), temp := some .halfWritten } : CheckpointFS).main =
        ({ main := some (.complete snapOld), temp := none } : CheckpointFS).main ∨
     ({ main := some (.complete snapOld), temp := some .halfWritten } : CheckpointFS).main =
        some (.complete snapNew)) :=
  save_checkpoint_crash_safe { main := some (.complete snapOld), temp := none } snapNew
    (by decide) { main := some (.complete snapOld), temp := some .halfWritten }
    (List.Mem.tail _ (List.Mem.head _))

/-- What `json.load` plus the dataclass reconstruction (lines 66-79) yields
for a persisted checkpoint file: a well-formed snapshot, undecodable JSON
(`json.JSONDecodeError`), or decodable JSON of the wrong field shape
(`KeyError`/`TypeError` during reconstruction). -/
inductive PersistedCheck where
  | wellFormedSnapshot (snap : MasterCheckpoint)
  | malformedJson
  | wrongShape
deriving DecidableEq

/-- The module-level names imported by src/checkpoint_manager.py
(lines 1-6): json, os, time, the typing and dataclasses items, and config.
`logging` is not among them, although lines 82, 118 and 219 call
`logging.warning` / `logging.error`. -/
def checkpoint_manager_imports : List String :=
  ["json", "os", "time", "typing", "dataclasses", "config"]

/-- Whether the name `logging` is bound in the module. -/
def logging_imported : Bool :=
  checkpoint_manager_imports.contains "logging"

/-- How `CheckpointManager._load_or_create_checkpoint` ends. -/
inductive LoadOutcome where
  | loaded (snap : MasterCheckpoint)
  | freshCheckpoint
  | raisedNameError
deriving DecidableEq

/-- `CheckpointManager._load_or_create_checkpoint` (lines 62-90): a missing
file or a handled parse failure is meant to fall through to a fresh
`MasterCheckpoint`; but the `except` handler's first statement is
`logging.warning(...)`, which raises `NameError` when the module has no
`logging` binding, escaping the handler. -/
def load_or_create_checkpoint (file : Option PersistedCheck) : LoadOutcome :=
  match file with
  | none => .freshCheckpoint
  | some (.wellFormedSnapshot s) => .loaded s
  | some .malformedJson =>
    if logging_imported then .freshCheckpoint else .raisedNameError
  | some .wrongShape =>
    if logging_imported then .freshCheckpoint else .raisedNameError

/-- C7: loading a malformed persisted checkpoint crashes instead of
recovering: the `except` handler that should discard the snapshot and
start fresh immediately evaluates the unbound name `logging`
(src/checkpoint_manager.py line 82; the module's top lines import only
json, os, time, typing items, dataclasses items and config), so the
recovery path raises `NameError` for both undecodable JSON and
wrong-shaped snapshots. -/
theorem load_corrupt_checkpoint_crashes :
    logging_imported = false ∧
    load_or_create_checkpoint (some .malformedJson) = .raisedNameError ∧
    load_or_create_checkpoint (some .wrongShape) = .raisedNameError ∧
    load_or_create_checkpoint (some .malformedJson) ≠ .freshCheckpoint := by
  decide

/-! ### Orchestrator finalization (src/unified_crawler.py, src/utils.py) -/

/-- State of a JSON artifact on disk: not written, decodable, or
undecodable by `json.load`. -/
inductive FileJson where
  | absent
  | wellFormed
  | malformed
deriving DecidableEq

/-- Whether a file contributes no error to `validate_crawled_data`: a
missing file only produces a warning (src/utils.py lines 350-353, 394-397),
while a `json.JSONDecodeError` appends to `errors`. -/
def file_ok : FileJson → Bool
  | .malformed => false
  | _ => true

/-- The parts of the output tree that `validate_crawled_data`
(src/utils.py lines 257-312) inspects: the two bulk files, the individual
commit-detail files present under `commit/all` (in listing order), and the
per-PR dependency files, which influence only warnings. -/
structure OutputTree where
  pull_all_data : FileJson
  commit_all_data : FileJson
  commit_detail_files : List FileJson
  pr_dep_files : List (Int × String × FileJson)
deriving DecidableEq

/-- The `valid` flag computed by `validate_crawled_data`: errors come only
from undecodable JSON in `pull/all_data.json`, `commit/all_data.json`
(lines 342-349, 386-393, and again in `_validate_json_integrity` lines
498-505) and in the first `min(10, n)` sampled commit-detail files (lines
507-520); the PR-dependency analysis appends warnings only (lines
419-483). -/
def validation_valid (t : OutputTree) : Bool :=
  file_ok t.pull_all_data && file_ok t.commit_all_data &&
    (t.commit_detail_files.take 10).all file_ok

/-- The run state that `UnifiedCrawler._finalize_crawling` (lines 216-246)
consults: the shutdown flag, the output tree it validates, and — pointedly
not consulted — the per-crawler completion flags of the checkpoint. -/
structure RunEnd where
  graceful_shutdown : Bool
  tree : OutputTree
  crawlers : List (String × Bool)
deriving DecidableEq

/-- `_finalize_crawling`: the checkpoint file is removed
(`cleanup_checkpoint`, line 238) iff the shutdown flag is clear and
`validate_crawled_data` reported `valid`. -/
def finalize_deletes_checkpoint (r : RunEnd) : Bool :=
  !r.graceful_shutdown && validation_valid r.tree

/-- An output tree whose bulk and sampled files all decode. -/
def treeAllOk : OutputTree :=
  { pull_all_data := .wellFormed, commit_all_data := .wellFormed,
    commit_detail_files := [.wellFormed, .wellFormed],
    pr_dep_files := [(7, "reviews", .absent)] }

/-- A finished run in which the `pr_reviews` crawler failed midway (its
checkpoint entry still has `completed = False`) — possible because
`_run_pr_dependencies_parallel` gathers the dependency crawlers with
`return_exceptions=True` (src/unified_crawler.py line 193), so the run
proceeds to finalization anyway — while the output files that validation
samples all decode and no shutdown was requested. -/
def runIncompleteReviews : RunEnd :=
  { graceful_shutdown := false, tree := treeAllOk,
    crawlers := [("pull_requests", true), ("commits", true), ("pr_files", true),
      ("pr_reviews", false), ("pr_commits", true), ("pr_comments", true),
      ("single_commits", true)] }

/-- C6 counterexample: `_finalize_crawling` deletes the checkpoint file of
`runIncompleteReviews` even though its `pr_reviews` task never reported
`completed = true`; the deletion condition never reads the completion
flags, contradicting the claim that the file is retained whenever any
task is left incomplete. -/
theorem checkpoint_deleted_despite_incomplete_task :
    finalize_deletes_checkpoint runIncompleteReviews = true ∧
    ("pr_reviews", false) ∈ runIncompleteReviews.crawlers := by
  decide

/-- C6 amended: the checkpoint file is deleted iff the run reaches
finalization with no cancellation and output-tree validation passes
(bulk files and the 10 sampled commit-detail files all decode); the
per-task completion flags play no part — replacing them with any other
flags leaves the decision unchanged, so the file can be deleted while a
task is incomplete, and conversely it is retained on cancellation or
validation failure regardless of completion. -/
theorem finalize_deletion_condition (r : RunEnd) (other : List (String × Bool)) :
    (finalize_deletes_checkpoint { r with crawlers := other } =
      finalize_deletes_checkpoint r) ∧
    (finalize_deletes_checkpoint r = true ↔
      (r.graceful_shutdown = false ∧ file_ok r.tree.pull_all_data = true ∧
       file_ok r.tree.commit_all_data = true ∧
       ∀ f ∈ r.tree.commit_detail_files.take 10, file_ok f = true)) := by
  constructor
  · rfl
  · simp only [finalize_deletes_checkpoint, validation_valid, Bool.and_eq_true,
      Bool.not_eq_true', List.all_eq_true, and_assoc]

/-! ### Fan-out tasks (src/crawlers/pr_dependencies.py, single_commits.py,
src/utils.py) -/

/-- The batch slicing of `BaseCrawler.process_in_batches`
(src/crawlers/base_crawler.py lines 150-168) and of
`batch_get_single_commits` (src/github_client.py line 201): items split
into consecutive chunks of `n`.  The code always calls it with `n ≥ 1`
(`range` would reject a zero step); the `n = 0` guard returns the list
whole so the function is total. -/
def to_batches (n : Nat) (l : List α) : List (List α) :=
  if n = 0 then [l]
  else if hl : l.isEmpty then []
  else l.take n :: to_batches n (l.drop n)
termination_by l.length
decreasing_by
  have hne : l ≠ [] := by
    intro h
    rw [h] at hl
    exact hl rfl
  have : 0 < l.length := List.length_pos.mpr hne
  simp only [List.length_drop]
  omega

/-- Concatenating the batches gives back the original work list: every
item is handed to the processing function exactly as often as it occurs
in the list. -/
theorem to_batches_flatten (n : Nat) (hn : n ≠ 0) (l : List α) :
    (to_batches n l).flatten = l := by
  rw [to_batches, if_neg hn]
  by_cases hl : l.isEmpty
  · rw [dif_pos hl]
    simp [List.isEmpty_iff.mp hl]
  · rw [dif_neg hl]
    have hne : l ≠ [] := by
      intro h
      rw [h] at hl
      exact hl rfl
    have hlt : (l.drop n).length < l.length := by
      have : 0 < l.length := List.length_pos.mpr hne
      simp only [List.length_drop]
      omega
    have ihd := to_batches_flatten n hn (l.drop n)
    simp [ihd, List.take_append_drop]
termination_by l.length
decreasing_by exact hlt

/-- One PR-dependency crawler's pass over the discovered pull numbers
(`PRDependenciesCrawler.crawl_implementation` / `_crawl_single_pr`,
src/crawlers/pr_dependencies.py lines 54-125), for one dependency type.
Artifacts are the `pull/<pr>/<dep>/all_data.json` files keyed by pull
number, `fetch` is the upstream payload.  Per unit: if the output file
already exists, record `skipped_item = str(pr_number)` and issue no
request (lines 76-77 and 99-101); otherwise fetch and write.  Returns
(artifacts, pull numbers fetched over the network, skip records). -/
def crawl_pr_dep_units (fetch : Int → Int) :
    List (Int × Int) → List Int → List (Int × Int) × List Int × List String
  | arts, [] => (arts, [], [])
  | arts, pr :: rest =>
    if (arts.lookup pr).isSome then
      let r := crawl_pr_dep_units fetch arts rest
      (r.1, r.2.1, toString pr :: r.2.2)
    else
      let r := crawl_pr_dep_units fetch ((pr, fetch pr) :: arts) rest
      (r.1, pr :: r.2.1, r.2.2)

/-- `SingleCommitsCrawler.estimate_total_items` (lines 26-42):
`remaining = sorted(set(all_commit_shas) - existing)`. -/
def remaining_commit_shas (all_shas existing : List String) : List String :=
  List.insertionSort (· ≤ ·)
    (all_shas.dedup.filter (fun s => !(existing.contains s)))

/-- The single-commits fan-out run (`SingleCommitsCrawler`,
src/crawlers/single_commits.py): artifacts are the
`commit/all/<sha>.json` files; already-existing SHAs are subtracted from
the work set up front, and — unlike the PR-dependency units — no
`skipped_item` is ever recorded for them (`update_progress` with a skip is
never called in this crawler).  Returns (artifacts, SHAs fetched over the
network, skip records). -/
def single_commits_run (fetch : String → Int) (arts : List (String × Int))
    (all_shas : List String) : List (String × Int) × List String × List String :=
  let existing := arts.map Prod.fst
  let remaining := remaining_commit_shas all_shas existing
  (remaining.foldl (fun a s => (s, fetch s) :: a) arts, remaining, [])

/-- C8 counterexample: the commit-detail fan-out unit for SHA "a" has its
output artifact on disk, and the task indeed performs no network call —
but it records no skip for it either (the skip list stays empty), so the
claim that every fan-out unit with an existing artifact gets a recorded
skip is false. -/
theorem single_commits_skip_not_recorded :
    (List.lookup "a" [("a", (7 : Int))]).isSome = true ∧
    single_commits_run (fun _ => 0) [("a", 7)] ["a"] = ([("a", 7)], [], []) := by
  constructor
  · decide
  · simp [single_commits_run, remaining_commit_shas, List.insertionSort]

/-- C8 amended: a PR-dependency unit whose artifact exists is skipped with
a recorded skip and no network call, so a complete second run over an
unchanged tree issues zero requests, records a skip per pull number, and
leaves every artifact untouched; the commit-detail task likewise issues no
request and rewrites nothing when all SHAs pre-exist, but it silently
drops them from its work set instead of recording skips. -/
theorem fanout_skip_and_idempotence (fetch : Int → Int) (fetchC : String → Int)
    (arts : List (Int × Int)) (carts : List (String × Int))
    (pulls : List Int) (shas : List String) (pr : Int) (rest : List Int)
    (hpr : (arts.lookup pr).isSome = true)
    (hall : ∀ p ∈ pulls, (arts.lookup p).isSome = true)
    (hsha : ∀ s ∈ shas, s ∈ carts.map Prod.fst) :
    (crawl_pr_dep_units fetch arts (pr :: rest) =
      ((crawl_pr_dep_units fetch arts rest).1,
       (crawl_pr_dep_units fetch arts rest).2.1,
       toString pr :: (crawl_pr_dep_units fetch arts rest).2.2)) ∧
    (crawl_pr_dep_units fetch arts pulls = (arts, [], pulls.map toString)) ∧
    (single_commits_run fetchC carts shas = (carts, [], [])) := by
  refine ⟨?_, ?_, ?_⟩
  · simp [crawl_pr_dep_units, hpr]
  · induction pulls with
    | nil => rfl
    | cons p ps ih =>
      have hp : (arts.lookup p).isSome = true := hall p (List.mem_cons_self p ps)
      have ihs := ih (fun q hq => hall q (List.mem_cons_of_mem p hq))
      simp [crawl_pr_dep_units, hp, ihs]
  · have hfil : (shas.dedup.filter
        (fun s => !((carts.map Prod.fst).contains s))) = [] := by
      refine List.filter_eq_nil_iff.mpr ?_
      intro s hs
      have hmem : s ∈ carts.map Prod.fst := hsha s (List.mem_dedup.mp hs)
      have hc : (carts.map Prod.fst).contains s = true := List.elem_iff.mpr hmem
      simp only [hc, Bool.not_true]
      exact Bool.false_ne_true
    simp only [single_commits_run, remaining_commit_shas]
    rw [hfil]
    simp [List.insertionSort]

/-- C8 witness: the amended theorem at a concrete pre-populated tree with
pull numbers 7 and 9 and SHAs "a", "b". -/
theorem fanout_skip_and_idempotence_witness :
    (crawl_pr_dep_units (fun _ => 0) [(7, 1), (9, 2)] [7, 9] =
      ((crawl_pr_dep_units (fun _ => 0) [(7, 1), (9, 2)] [9]).1,
       (crawl_pr_dep_units (fun _ => 0) [(7, 1), (9, 2)] [9]).2.1,
       toString (7 : Int) ::
         (crawl_pr_dep_units (fun _ => 0) [(7, 1), (9, 2)] [9]).2.2)) ∧
    (crawl_pr_dep_units (fun _ => 0) [(7, 1), (9, 2)] [7, 9] =
      ([(7, 1), (9, 2)], [], List.map toString [7, 9])) ∧
    (single_commits_run (fun _ => 0) [("a", 1), ("b", 2)] ["a", "b"] =
      ([("a", 1), ("b", 2)], [], [])) :=
  fanout_skip_and_idempotence (fun _ => 0) (fun _ => 0) [(7, 1), (9, 2)]
    [("a", 1), ("b", 2)] [7, 9] ["a", "b"] 7 [9] (by decide) (by decide) (by decide)

/-! ### Commit-sha discovery and deduplication (src/utils.py lines 94-174) -/

/-- `get_all_commit_shas_from_commits` (src/utils.py lines 94-115): the
`sha` fields collected from the JSON files of the `commit` folder, here as
the concatenation of the per-file sha lists (the Python set constructed
from them is applied at the union step below). -/
def shas_from_commit_files (files : List (List String)) : List String :=
  files.flatten

/-- `get_all_commit_shas_from_reviews` (lines 117-145): every review's
`commit_id` across all PR review files, keeping only values that are
present and truthy (`if 'commit_id' in review and review['commit_id']` —
a missing field or an empty string is dropped). -/
def shas_from_review_files (files : List (List (Option String))) : List String :=
  files.flatten.filterMap fun o =>
    match o with
    | some s => if s = "" then none else some s
    | none => none

/-- `get_all_unique_commit_shas` (lines 147-162):
`sorted(list(commit_shas_from_commits.union(commit_shas_from_reviews)))`. -/
def get_all_unique_commit_shas (cf : List (List String))
    (rf : List (List (Option String))) : List String :=
  List.insertionSort (· ≤ ·)
    ((shas_from_commit_files cf ++ shas_from_review_files rf).dedup)

/-- Membership in the commit-detail work set: a sha is remaining iff it
was discovered and has no artifact yet. -/
theorem mem_remaining_commit_shas (all ex : List String) (s : String) :
    s ∈ remaining_commit_shas all ex ↔ (s ∈ all ∧ s ∉ ex) := by
  simp only [remaining_commit_shas, List.mem_insertionSort, List.mem_filter,
    List.mem_dedup, Bool.not_eq_true']
  constructor
  · rintro ⟨h1, h2⟩
    refine ⟨h1, fun hmem => ?_⟩
    have ht : ex.contains s = true := List.elem_iff.mpr hmem
    rw [ht] at h2
    exact Bool.noConfusion h2
  · rintro ⟨h1, h2⟩
    refine ⟨h1, ?_⟩
    cases hc : ex.contains s
    · rfl
    · exact absurd (List.elem_iff.mp hc) h2

/-- The commit-detail work list never repeats a sha. -/
theorem nodup_remaining_commit_shas (all ex : List String) :
    (remaining_commit_shas all ex).Nodup := by
  have h1 : (all.dedup.filter (fun s => !(ex.contains s))).Nodup :=
    (List.nodup_dedup all).filter _
  exact ((List.perm_insertionSort _ _).nodup_iff).mpr h1

/-- Membership in the union of discovered shas. -/
theorem mem_get_all_unique_commit_shas (cf : List (List String))
    (rf : List (List (Option String))) (s : String) :
    s ∈ get_all_unique_commit_shas cf rf ↔
      (s ∈ shas_from_commit_files cf ∨ s ∈ shas_from_review_files rf) := by
  simp [get_all_unique_commit_shas, List.mem_insertionSort, List.mem_dedup]

/-- C9: the commit-detail fan-out work set is exactly the union of the
shas in the bulk commit data and the commit ids referenced by reviews,
minus those with an existing per-commit artifact; the work list has no
duplicates and batching hands each element out exactly once; and the
result is identical for any two source trees that discovered the same set
of shas, regardless of which source discovered which sha. -/
theorem commit_detail_work_set (cf cf' : List (List String))
    (rf rf' : List (List (Option String))) (existing : List String) (n : Nat)
    (hn : n ≠ 0)
    (hsame : ∀ s : String,
      s ∈ shas_from_commit_files cf ++ shas_from_review_files rf ↔
        s ∈ shas_from_commit_files cf' ++ shas_from_review_files rf') :
    (∀ s : String,
      s ∈ remaining_commit_shas (get_all_unique_commit_shas cf rf) existing ↔
        ((s ∈ shas_from_commit_files cf ∨ s ∈ shas_from_review_files rf) ∧
          s ∉ existing)) ∧
    (remaining_commit_shas (get_all_unique_commit_shas cf rf) existing).Nodup ∧
    (to_batches n
        (remaining_commit_shas (get_all_unique_commit_shas cf rf) existing)).flatten =
      remaining_commit_shas (get_all_unique_commit_shas cf rf) existing ∧
    remaining_commit_shas (get_all_unique_commit_shas cf rf) existing =
      remaining_commit_shas (get_all_unique_commit_shas cf' rf') existing := by
  have hchar : ∀ s : String,
      s ∈ remaining_commit_shas (get_all_unique_commit_shas cf rf) existing ↔
        ((s ∈ shas_from_commit_files cf ∨ s ∈ shas_from_review_files rf) ∧
          s ∉ existing) := by
    intro s
    rw [mem_remaining_commit_shas, mem_get_all_unique_commit_shas]
  have hchar' : ∀ s : String,
      s ∈ remaining_commit_shas (get_all_unique_commit_shas cf' rf') existing ↔
        ((s ∈ shas_from_commit_files cf' ∨ s ∈ shas_from_review_files rf') ∧
          s ∉ existing) := by
    intro s
    rw [mem_remaining_commit_shas, mem_get_all_unique_commit_shas]
  refine ⟨hchar, nodup_remaining_commit_shas _ _, to_batches_flatten n hn _, ?_⟩
  refine List.eq_of_perm_of_sorted
    (List.perm_of_nodup_nodup_toFinset_eq (nodup_remaining_commit_shas _ _)
      (nodup_remaining_commit_shas _ _) ?_)
    (List.sorted_insertionSort _ _) (List.sorted_insertionSort _ _)
  ext s
  have hs := hsame s
  simp only [List.mem_append] at hs
  simp [List.mem_toFinset, hchar s, hchar' s, hs]

/-- C9 witness: the work-set theorem at the spec's own example — bulk
commits {a,b,c}, reviews referencing {b,c,d} — against a discovery order
where the roles are swapped ({b,c,d} from commits, {a} from reviews),
with no pre-existing artifacts and batch size 2. -/
theorem commit_detail_work_set_witness :
    (∀ s : String,
      s ∈ remaining_commit_shas
          (get_all_unique_commit_shas [["a", "b", "c"]] [[some "b", some "c", some "d"]])
          [] ↔
        ((s ∈ shas_from_commit_files [["a", "b", "c"]] ∨
          s ∈ shas_from_review_files [[some "b", some "c", some "d"]]) ∧
          s ∉ ([] : List String))) ∧
    (remaining_commit_shas
      (get_all_unique_commit_shas [["a", "b", "c"]] [[some "b", some "c", some "d"]])
      []).Nodup ∧
    (to_batches 2
        (remaining_commit_shas
          (get_all_unique_commit_shas [["a", "b", "c"]]
            [[some "b", some "c", some "d"]]) [])).flatten =
      remaining_commit_shas
        (get_all_unique_commit_shas [["a", "b", "c"]] [[some "b", some "c", some "d"]])
        [] ∧
    remaining_commit_shas
        (get_all_unique_commit_shas [["a", "b", "c"]] [[some "b", some "c", some "d"]])
        [] =
      remaining_commit_shas
        (get_all_unique_commit_shas [["b", "c", "d"]] [[some "a"]]) [] :=
  commit_detail_work_set [["a", "b", "c"]] [["b", "c", "d"]]
    [[some "b", some "c", some "d"]] [[some "a"]] [] 2 (by decide)
    (by
      intro s
      simp only [shas_from_commit_files, shas_from_review_files, List.flatten,
        List.append_nil, List.filterMap]
      simp [List.mem_append, List.mem_cons, or_comm, or_assoc, or_left_comm])

/-! ### Dynamic batch size (src/crawlers/single_commits.py lines 52-63) -/

/-- The commit-detail crawler's batch-size choice from the current
remaining quota: `remaining < 500 → 5`, `remaining < 1000 → 10`, else
`min(20, max_concurrent_requests)`. -/
def determine_commit_batch_size (maxConc remaining : Int) : Int :=
  if remaining < 500 then 5
  else if remaining < 1000 then 10
  else min 20 maxConc

/-- C10 counterexample: with a configured maximum of 3 concurrent
requests, the batch size jumps from 3 (at remaining = 1000) up to 10 (at
remaining = 999), so batch size is not non-increasing as remaining quota
decreases for every configured maximum. -/
theorem commit_batch_size_not_monotone :
    (999 : Int) ≤ 1000 ∧
    determine_commit_batch_size 3 1000 = 3 ∧
    determine_commit_batch_size 3 999 = 10 ∧
    ¬(determine_commit_batch_size 3 999 ≤ determine_commit_batch_size 3 1000) := by
  decide

/-- C10 amended: the thresholds are as claimed — 5 below 500 remaining, 10
from 500 up to 999, and `min(configuredMax, 20)` from 1000 — and the
chosen batch size is non-increasing as remaining decreases provided the
configured maximum is at least 10 (which holds for the shipped default of
10); below that, the top tier dips under the middle tier. -/
theorem commit_batch_size_spec (maxConc r r1 r2 : Int) (hmax : 10 ≤ maxConc)
    (hr : r2 ≤ r1) :
    (r < 500 → determine_commit_batch_size maxConc r = 5) ∧
    (500 ≤ r → r < 1000 → determine_commit_batch_size maxConc r = 10) ∧
    (1000 ≤ r → determine_commit_batch_size maxConc r = min maxConc 20) ∧
    determine_commit_batch_size maxConc r2 ≤ determine_commit_batch_size maxConc r1 := by
  unfold determine_commit_batch_size
  refine ⟨fun h1 => by rw [if_pos h1],
    fun h1 h2 => by rw [if_neg (by omega), if_pos h2],
    fun h1 => by rw [if_neg (by omega), if_neg (by omega)]; exact min_comm 20 maxConc,
    by split_ifs <;> omega⟩

/-- C10 witness: the amended theorem at the shipped configuration
(maximum 10) and the threshold pair 1000 / 400, covering the spec's
scenario values. -/
theorem commit_batch_size_spec_witness :
    ((1200 : Int) < 500 → determine_commit_batch_size 10 1200 = 5) ∧
    ((500 : Int) ≤ 1200 → (1200 : Int) < 1000 →
      determine_commit_batch_size 10 1200 = 10) ∧
    ((1000 : Int) ≤ 1200 → determine_commit_batch_size 10 1200 = min 10 20) ∧
    determine_commit_batch_size 10 400 ≤ determine_commit_batch_size 10 1000 :=
  commit_batch_size_spec 10 1200 1000 400 (by decide) (by decide)

end GithubCrawler
